import Mathlib

/-!
Shallow embedding of the simple-kpc measurement engine
(src/simple_kpc.c and src/kpc_demo.c).

The C code is straight-line code whose only effects are calls into two
dynamically loaded capability modules (kperf / kperfdata) plus stdio
output.  We embed it as pure functions that, given an environment
describing what every capability call returns, produce the trace of
calls performed (in order) together with the resulting data.
-/

namespace SimpleKpc

/-- maximum number of counters readable in one go; `KPC_MAX_COUNTERS`
in both src/simple_kpc.c and src/kpc_demo.c. -/
def KPC_MAX_COUNTERS : Nat := 32

/-- modulus of unsigned 64-bit arithmetic. -/
def U64_MOD : Nat := 2 ^ 64

/-- wrapping unsigned 64-bit subtraction: the semantics of `a - b`
on `u64` operands in C. -/
def u64_sub (a b : Nat) : Nat :=
  (a % U64_MOD + (U64_MOD - b % U64_MOD)) % U64_MOD

/-- error code `KPEP_CONFIG_ERROR_CONFLICTING_EVENTS` from the
`kpep_config_error_code` enum in src/kpc_demo.c. -/
def KPEP_CONFIG_ERROR_CONFLICTING_EVENTS : Nat := 12

/-- struct `sk_events` from src/simple_kpc.c (identical to `struct events`
in src/kpc_demo.c): two arrays of `KPC_MAX_COUNTERS` string slots
allocated with `calloc` (so initially NULL, modelled as `none`) and a
count of pushed events. -/
structure sk_events where
  human_readable_names : List (Option String)
  internal_names : List (Option String)
  count : Nat
deriving Repr, DecidableEq

/-- function `sk_events_create`: both arrays are `calloc`ed with
`KPC_MAX_COUNTERS` elements, count starts at 0. -/
def sk_events_create : sk_events :=
  { human_readable_names := List.replicate KPC_MAX_COUNTERS none
    internal_names := List.replicate KPC_MAX_COUNTERS none
    count := 0 }

/-- function `sk_events_push`: stores both names at index `e->count`
and increments `e->count`.  There is no bounds check in the C code;
`List.set` is used for the store (out-of-range stores are modelled
separately by `sk_events_push_write_index`). -/
def sk_events_push (e : sk_events) (human_readable_name internal_name : String) :
    sk_events :=
  { human_readable_names :=
      e.human_readable_names.set e.count (some human_readable_name)
    internal_names := e.internal_names.set e.count (some internal_name)
    count := e.count + 1 }

/-- index into both arrays that `sk_events_push` writes to: `e->count`. -/
def sk_events_push_write_index (e : sk_events) : Nat := e.count

/-- repeated `sk_events_push` calls, in list order. -/
def sk_events_push_all (e : sk_events) : List (String × String) → sk_events
  | [] => e
  | (h, n) :: rest => sk_events_push_all (sk_events_push e h n) rest

/-- array indices written by a sequence of `sk_events_push` calls,
in order. -/
def sk_events_push_all_write_indices (e : sk_events) :
    List (String × String) → List Nat
  | [] => []
  | (h, n) :: rest =>
    sk_events_push_write_index e ::
      sk_events_push_all_write_indices (sk_events_push e h n) rest

/-- event-request pairs (display name, catalog key) actually read back
from an `sk_events` by the measurement loops: entry `i` of each array
for `i < count`, with NULL reads decoded as the empty string. -/
def requests (e : sk_events) : List (String × String) :=
  (List.range e.count).map fun i =>
    ((e.human_readable_names.getD i none).getD "",
     (e.internal_names.getD i none).getD "")

/-- calls into the capability modules and stdio performed by
`sk_start_measurement` / `sk_finish_measurement`, in program order. -/
inductive Action where
  | kpep_db_create
  | kpep_config_create
  | kpep_config_force_counters
  | kpep_db_event (name : String)
  | kpep_config_add_event (name : String) (ret : Nat) (err_null : Bool)
  | kpep_config_kpc_classes
  | kpep_config_kpc_map (buf_size : Nat)
  | kpep_config_kpc (buf_size : Nat)
  | kpep_config_free
  | kpep_db_free
  | kpc_force_all_ctrs_set (val : Nat)
  | kpc_set_config
  | kpc_set_counting (classes : Nat)
  | kpc_set_thread_counting (classes : Nat)
  | kpc_get_thread_counters
  | print_line (s : String)
  | set_locale
  | print_report_line (delta : Nat) (name : String)
  | exit_process (code : Nat)
deriving Repr, DecidableEq

/-- environment: what each capability call returns or writes through its
out parameters.  `db_event key = none` models `kpep_db_event` leaving
the event pointer NULL (event not found); `add_event_result` is the
status code returned by `kpep_config_add_event` (discarded by the C
code); `kpc_count` is the register count the configuration would report
through `kpep_config_kpc_count` (never queried by src/simple_kpc.c);
`counter_map`, `regs` and `thread_counters` are what
`kpep_config_kpc_map`, `kpep_config_kpc` and the before-snapshot
`kpc_get_thread_counters` write into the measurement struct. -/
structure Env where
  db_event : String → Option Nat
  add_event_result : String → Nat
  kpc_count : Nat
  classes : Nat
  counter_map : List Nat
  regs : List Nat
  thread_counters : List Nat

/-- outcome of the event-resolution loop in `sk_start_measurement`:
the trace of calls performed and, when some catalog key was
unresolvable, the (display name, catalog key) pair of the first
failing request. -/
structure AddLoopResult where
  trace : List Action
  missing : Option (String × String)
deriving Repr, DecidableEq

/-- the `for` loop over `m->events->count` in `sk_start_measurement`:
for each request, call `kpep_db_event`; if the event pointer is still
NULL, print a diagnostic naming the display name and `exit(1)`;
otherwise call `kpep_config_add_event` with a NULL error bitmap,
discarding its return value, and continue. -/
def add_events_loop (env : Env) : List (String × String) → AddLoopResult
  | [] => ⟨[], none⟩
  | (h, n) :: rest =>
    match env.db_event n with
    | none =>
      ⟨[Action.kpep_db_event n,
        Action.print_line ("Cannot find event for " ++ h ++ ": " ++ n ++ "."),
        Action.exit_process 1],
       some (h, n)⟩
    | some _ =>
      let r := add_events_loop env rest
      ⟨Action.kpep_db_event n ::
         Action.kpep_config_add_event n (env.add_event_result n) true ::
         r.trace,
       r.missing⟩

/-- struct `sk_in_progress_measurement` from src/simple_kpc.c
(identical to `struct in_progress_measurement_internal` in
src/kpc_demo.c). -/
structure sk_in_progress_measurement where
  events : sk_events
  classes : Nat
  counter_map : List Nat
  regs : List Nat
  counters : List Nat
deriving Repr, DecidableEq

/-- calls performed by `sk_start_measurement` after the event loop
succeeded: extract classes, slot map and register values (the buffer
sizes passed are `sizeof(m->counter_map)` and `sizeof(m->regs)`, i.e.
`KPC_MAX_COUNTERS` 8-byte entries each), free the transient config and
db, acquire the counters, program the registers, enable counting at
system then thread scope, and read the before snapshot last. -/
def start_tail_trace (env : Env) : List Action :=
  [Action.kpep_config_kpc_classes,
   Action.kpep_config_kpc_map (KPC_MAX_COUNTERS * 8),
   Action.kpep_config_kpc (KPC_MAX_COUNTERS * 8),
   Action.kpep_config_free,
   Action.kpep_db_free,
   Action.kpc_force_all_ctrs_set 1,
   Action.kpc_set_config,
   Action.kpc_set_counting env.classes,
   Action.kpc_set_thread_counting env.classes,
   Action.kpc_get_thread_counters]

/-- full call trace of `sk_start_measurement` (after the `assert`):
db/config creation and force-counters, the event loop, then — only if
the loop did not `exit(1)` — the tail ending in the before-snapshot
read. -/
def sk_start_measurement_trace (env : Env) (e : sk_events) : List Action :=
  [Action.kpep_db_create, Action.kpep_config_create,
   Action.kpep_config_force_counters]
  ++ (add_events_loop env (requests e)).trace
  ++ match (add_events_loop env (requests e)).missing with
     | some _ => []
     | none => start_tail_trace env

/-- value returned by `sk_start_measurement`: `none` when the event
loop called `exit(1)`, otherwise the measurement struct filled in from
the capability calls. -/
def sk_start_measurement_result (env : Env) (e : sk_events) :
    Option sk_in_progress_measurement :=
  match (add_events_loop env (requests e)).missing with
  | some _ => none
  | none =>
    some { events := e
           classes := env.classes
           counter_map := env.counter_map
           regs := env.regs
           counters := env.thread_counters }

/-- entry point of `sk_start_measurement` including its
`assert(initialized)`: when the flag is false the assertion aborts the
process before any capability call (`none`); otherwise the body runs. -/
def sk_start_measurement (flag_initialized : Bool) (env : Env) (e : sk_events) :
    Option (List Action × Option sk_in_progress_measurement) :=
  if flag_initialized then
    some (sk_start_measurement_trace env e, sk_start_measurement_result env e)
  else
    none

/-- per-event deltas computed by the report loop of
`sk_finish_measurement`: for each `i < m->events->count`, the name is
`m->events->human_readable_names[i]` and the delta is
`counters_after[idx] - m->counters[idx]` (wrapping u64 subtraction)
where `idx = m->counter_map[i]`. -/
def sk_finish_measurement_deltas (m : sk_in_progress_measurement)
    (counters_after : List Nat) : List (String × Nat) :=
  (List.range m.events.count).map fun i =>
    let name := (m.events.human_readable_names.getD i none).getD ""
    let idx := m.counter_map.getD i 0
    (name, u64_sub (counters_after.getD idx 0) (m.counters.getD idx 0))

/-- output actions of `sk_finish_measurement` after the kpc teardown
calls: header, `setlocale`, then one line per event. -/
def report_trace (m : sk_in_progress_measurement) (counters_after : List Nat) :
    List Action :=
  Action.print_line "=== simple-kpc report ===" ::
  Action.set_locale ::
  (sk_finish_measurement_deltas m counters_after).map fun p =>
    Action.print_report_line p.2 p.1

/-- full call trace of `sk_finish_measurement`: read the after
snapshot, then `kpc_set_counting(0)`, then `kpc_force_all_ctrs_set(0)`,
then the report output. -/
def sk_finish_measurement_trace (m : sk_in_progress_measurement)
    (counters_after : List Nat) : List Action :=
  Action.kpc_get_thread_counters ::
  Action.kpc_set_counting 0 ::
  Action.kpc_force_all_ctrs_set 0 ::
  report_trace m counters_after

/-- actions that only compute/format/print the report (no capability
state change). -/
def is_output_action : Action → Bool
  | Action.print_line _ => true
  | Action.set_locale => true
  | Action.print_report_line _ _ => true
  | _ => false

/-- recognizer for `kpc_set_thread_counting` calls. -/
def is_set_thread_counting : Action → Bool
  | Action.kpc_set_thread_counting _ => true
  | _ => false

/-- names registered via `kpep_config_add_event` in a trace. -/
def added_event_names (t : List Action) : List String :=
  t.filterMap fun a =>
    match a with
    | Action.kpep_config_add_event n _ _ => some n
    | _ => none

/-! Capability resolver of src/kpc_demo.c: `lib_init` / `lib_deinit`
with the process-wide state `lib_inited`, `lib_has_err`,
`lib_err_msg`, the two module handles and the two symbol tables. -/

/-- symbol names of the `lib_symbols_kperf` table in src/kpc_demo.c. -/
def lib_symbols_kperf : List String :=
  ["kpc_pmu_version", "kpc_cpu_string", "kpc_set_counting",
   "kpc_get_counting", "kpc_set_thread_counting",
   "kpc_get_thread_counting", "kpc_get_config_count",
   "kpc_get_counter_count", "kpc_set_config", "kpc_get_config",
   "kpc_get_cpu_counters", "kpc_get_thread_counters",
   "kpc_force_all_ctrs_set", "kpc_force_all_ctrs_get",
   "kperf_action_count_set", "kperf_action_count_get",
   "kperf_action_samplers_set", "kperf_action_samplers_get",
   "kperf_action_filter_set_by_task", "kperf_action_filter_set_by_pid",
   "kperf_timer_count_set", "kperf_timer_count_get",
   "kperf_timer_period_set", "kperf_timer_period_get",
   "kperf_timer_action_set", "kperf_timer_action_get",
   "kperf_sample_set", "kperf_sample_get", "kperf_reset",
   "kperf_timer_pet_set", "kperf_timer_pet_get", "kperf_ns_to_ticks",
   "kperf_ticks_to_ns", "kperf_tick_frequency"]

/-- symbol names of the `lib_symbols_kperfdata` table in
src/kpc_demo.c. -/
def lib_symbols_kperfdata : List String :=
  ["kpep_config_create", "kpep_config_free", "kpep_config_add_event",
   "kpep_config_remove_event", "kpep_config_force_counters",
   "kpep_config_events_count", "kpep_config_events", "kpep_config_kpc",
   "kpep_config_kpc_count", "kpep_config_kpc_classes",
   "kpep_config_kpc_map", "kpep_db_create", "kpep_db_free",
   "kpep_db_name", "kpep_db_aliases_count", "kpep_db_aliases",
   "kpep_db_counters_count", "kpep_db_events_count", "kpep_db_events",
   "kpep_db_event", "kpep_event_name", "kpep_event_alias",
   "kpep_event_description"]

/-- `lib_path_kperf` from src/kpc_demo.c. -/
def lib_path_kperf : String :=
  "/System/Library/PrivateFrameworks/kperf.framework/kperf"

/-- `lib_path_kperfdata` from src/kpc_demo.c. -/
def lib_path_kperfdata : String :=
  "/System/Library/PrivateFrameworks/kperfdata.framework/kperfdata"

/-- process-wide resolver state of src/kpc_demo.c: the flags, the error
message, the two `dlopen` handles (modelled as present/NULL) and one
bound/NULL flag per entry of each symbol table. -/
structure LibState where
  lib_inited : Bool
  lib_has_err : Bool
  lib_err_msg : String
  lib_handle_kperf : Bool
  lib_handle_kperfdata : Bool
  syms_kperf : List Bool
  syms_kperfdata : List Bool
deriving Repr, DecidableEq

/-- state of the globals at program start: everything false / NULL. -/
def lib_state_start : LibState :=
  { lib_inited := false
    lib_has_err := false
    lib_err_msg := ""
    lib_handle_kperf := false
    lib_handle_kperfdata := false
    syms_kperf := List.replicate lib_symbols_kperf.length false
    syms_kperfdata := List.replicate lib_symbols_kperfdata.length false }

/-- environment of the resolver: whether each `dlopen` succeeds and
whether `dlsym` finds each symbol name. -/
structure LibEnv where
  dlopen_kperf : Bool
  dlopen_kperfdata : Bool
  dlsym_kperf : String → Bool
  dlsym_kperfdata : String → Bool

/-- dynamic-loader calls performed by the resolver, in order. -/
inductive LibAction where
  | dlopen (path : String)
  | dlsym (name : String)
  | dlclose (path : String)
deriving Repr, DecidableEq

/-- function `lib_deinit` from src/kpc_demo.c: clears both flags,
`dlclose`s whichever handles are held, NULLs both handles and every
entry of both symbol tables.  The error message is not touched. -/
def lib_deinit (s : LibState) : LibState :=
  { lib_inited := false
    lib_has_err := false
    lib_err_msg := s.lib_err_msg
    lib_handle_kperf := false
    lib_handle_kperfdata := false
    syms_kperf := List.replicate lib_symbols_kperf.length false
    syms_kperfdata := List.replicate lib_symbols_kperfdata.length false }

/-- loader calls performed by `lib_deinit`: a `dlclose` per held
handle. -/
def lib_deinit_trace (s : LibState) : List LibAction :=
  (if s.lib_handle_kperf then [LibAction.dlclose lib_path_kperf] else [])
  ++ (if s.lib_handle_kperfdata then [LibAction.dlclose lib_path_kperfdata]
      else [])

/-- the `return_err()` macro of `lib_init`: store the message, run
`lib_deinit()`, then set `lib_inited = true`, `lib_has_err = true` and
return false. -/
def lib_return_err (s : LibState) (msg : String) : LibState × Bool :=
  let s' := lib_deinit { s with lib_err_msg := msg }
  ({ s' with lib_inited := true, lib_has_err := true }, false)

/-- outcome of one symbol-binding loop of `lib_init`: the bound/NULL
flags written (a prefix of the table — the loop stops at the first
`dlsym` failure), the `dlsym` calls performed, and the first missing
symbol name if any. -/
structure LoadResult where
  flags : List Bool
  trace : List LibAction
  missing : Option String
deriving Repr, DecidableEq

/-- one symbol-binding loop of `lib_init`: writes `dlsym`'s result into
the table slot, then fails on NULL. -/
def load_symbols (resolve : String → Bool) : List String → LoadResult
  | [] => ⟨[], [], none⟩
  | n :: rest =>
    if resolve n then
      let r := load_symbols resolve rest
      ⟨true :: r.flags, LibAction.dlsym n :: r.trace, r.missing⟩
    else
      ⟨[false], [LibAction.dlsym n], some n⟩

/-- overwrite the leading entries of a table with newly written flags,
keeping the untouched tail (the binding loop writes slots 0.. in
order and stops early on failure). -/
def write_front (old new : List Bool) : List Bool :=
  new ++ old.drop new.length

/-- function `lib_init` from src/kpc_demo.c: returns the new global
state, the boolean result, and the loader calls performed.  A cached
call (`lib_inited` already true) returns `!lib_has_err` immediately
with no loader activity; otherwise the two modules are `dlopen`ed and
the two symbol tables bound, any failure routing through
`return_err()`. -/
def lib_init (env : LibEnv) (s : LibState) : LibState × Bool × List LibAction :=
  if s.lib_inited then (s, !s.lib_has_err, [])
  else
    let s1 := { s with lib_handle_kperf := env.dlopen_kperf }
    if !env.dlopen_kperf then
      let (s', b) := lib_return_err s1 "Failed to load kperf.framework."
      (s', b, [LibAction.dlopen lib_path_kperf] ++ lib_deinit_trace s1)
    else
      let s2 := { s1 with lib_handle_kperfdata := env.dlopen_kperfdata }
      if !env.dlopen_kperfdata then
        let (s', b) := lib_return_err s2 "Failed to load kperfdata.framework."
        (s', b,
         [LibAction.dlopen lib_path_kperf, LibAction.dlopen lib_path_kperfdata]
         ++ lib_deinit_trace s2)
      else
        let r1 := load_symbols env.dlsym_kperf lib_symbols_kperf
        let s3 := { s2 with syms_kperf := write_front s2.syms_kperf r1.flags }
        match r1.missing with
        | some n =>
          let (s', b) :=
            lib_return_err s3 ("Failed to load kperf function: " ++ n ++ ".")
          (s', b,
           [LibAction.dlopen lib_path_kperf,
            LibAction.dlopen lib_path_kperfdata]
           ++ r1.trace ++ lib_deinit_trace s3)
        | none =>
          let r2 := load_symbols env.dlsym_kperfdata lib_symbols_kperfdata
          let s4 :=
            { s3 with syms_kperfdata := write_front s3.syms_kperfdata r2.flags }
          match r2.missing with
          | some n =>
            let (s', b) :=
              lib_return_err s4
                ("Failed to load kperfdata function: " ++ n ++ ".")
            (s', b,
             [LibAction.dlopen lib_path_kperf,
              LibAction.dlopen lib_path_kperfdata]
             ++ r1.trace ++ r2.trace ++ lib_deinit_trace s4)
          | none =>
            ({ s4 with lib_inited := true, lib_has_err := false }, true,
             [LibAction.dlopen lib_path_kperf,
              LibAction.dlopen lib_path_kperfdata]
             ++ r1.trace ++ r2.trace)

/-- a capability table with no partially bound entry points: no module
handle held and every symbol slot NULL. -/
def no_partial_table (s : LibState) : Prop :=
  s.lib_handle_kperf = false ∧ s.lib_handle_kperfdata = false ∧
  s.syms_kperf = List.replicate lib_symbols_kperf.length false ∧
  s.syms_kperfdata = List.replicate lib_symbols_kperfdata.length false

/-! Resolver of src/simple_kpc.c: `sk_init` guarded by the global
`initialized` flag; every failure is an `exit(1)`. -/

/-- symbol names of the `KPERF_SYMBOLS` table in src/simple_kpc.c. -/
def KPERF_SYMBOLS : List String :=
  ["kpc_set_counting", "kpc_set_thread_counting", "kpc_set_config",
   "kpc_get_thread_counters", "kpc_force_all_ctrs_set",
   "kpc_force_all_ctrs_get"]

/-- symbol names of the `KPERFDATA_SYMBOLS` table in
src/simple_kpc.c. -/
def KPERFDATA_SYMBOLS : List String :=
  ["kpep_config_create", "kpep_config_free", "kpep_config_add_event",
   "kpep_config_force_counters", "kpep_config_kpc",
   "kpep_config_kpc_classes", "kpep_config_kpc_map", "kpep_db_create",
   "kpep_db_free", "kpep_db_events_count", "kpep_db_events",
   "kpep_db_event"]

/-- environment of `sk_init`: whether each `dlopen` succeeds, whether
`dlsym` finds each name, and the return value of the
`kpc_force_all_ctrs_get(NULL)` permission probe. -/
structure SkInitEnv where
  dlopen_kperf : Bool
  dlopen_kperfdata : Bool
  dlsym_kperf : String → Bool
  dlsym_kperfdata : String → Bool
  force_all_ctrs_get_ret : Int

/-- function `sk_init` from src/simple_kpc.c acting on the global
`initialized` flag: `none` models a path that reaches `exit(1)`;
`some b` models a normal return with the flag left equal to `b`.  An
already-initialized call returns immediately; otherwise both modules
must load, every symbol of both tables must resolve, and the
permission probe must return 0, after which `initialized` is set. -/
def sk_init (env : SkInitEnv) (flag_initialized : Bool) : Option Bool :=
  if flag_initialized then some flag_initialized
  else if !env.dlopen_kperf then none
  else if !env.dlopen_kperfdata then none
  else if !(KPERF_SYMBOLS.all env.dlsym_kperf) then none
  else if !(KPERFDATA_SYMBOLS.all env.dlsym_kperfdata) then none
  else if env.force_all_ctrs_get_ret != 0 then none
  else some true

/-! Auxiliary characterizations and concrete example inputs. -/

/-- index of the first request whose catalog key `kpep_db_event` cannot
resolve (leaves the event pointer NULL), if any. -/
def first_missing_index (env : Env) : List (String × String) → Option Nat
  | [] => none
  | r :: rest =>
    if (env.db_event r.2).isNone then some 0
    else (first_missing_index env rest).map (· + 1)

/-- predicate: every `kpep_config_add_event` call in the trace passed a
NULL error bitmap. -/
def is_err_bitmap_null : Action → Bool
  | Action.kpep_config_add_event _ _ b => b
  | _ => true

/-- example environment: every event resolves, `add_event` always
succeeds, the configuration would report 4 kpc registers, classes 3,
slot map sending request 0 to counter 2 and request 1 to counter 0. -/
def env_ex : Env :=
  { db_event := fun _ => some 1
    add_event_result := fun _ => 0
    kpc_count := 4
    classes := 3
    counter_map := [2, 0]
    regs := [5]
    thread_counters := [10, 20, 30] }

/-- example request list of length 2. -/
def requests_ex : List (String × String) :=
  [("cycles", "FIXED_CYCLES"), ("instructions", "FIXED_INSTRUCTIONS")]

/-- example events struct built by pushing `requests_ex`. -/
def events_ex : sk_events := sk_events_push_all sk_events_create requests_ex

/-- example in-progress measurement, as produced by
`sk_start_measurement` under `env_ex` from `events_ex`. -/
def measurement_ex : sk_in_progress_measurement :=
  { events := events_ex
    classes := 3
    counter_map := [2, 0]
    regs := [5]
    counters := [10, 20, 30] }

/-- example environment in which `kpep_config_add_event` reports that
the second event conflicts with hardware already allocated. -/
def env_conflict_ex : Env :=
  { env_ex with
    add_event_result := fun n =>
      if n = "FIXED_INSTRUCTIONS" then KPEP_CONFIG_ERROR_CONFLICTING_EVENTS
      else 0 }

/-- example environment whose catalog only knows `FIXED_CYCLES`. -/
def env_missing_ex : Env :=
  { env_ex with
    db_event := fun n => if n = "FIXED_CYCLES" then some 1 else none }

/-- example request list whose second key is not in the catalog of
`env_missing_ex`. -/
def requests_missing_ex : List (String × String) :=
  [("cycles", "FIXED_CYCLES"), ("branches", "NOT_A_REAL_EVENT"),
   ("later", "ALSO_NOT_REAL")]

/-- resolver environment in which everything loads. -/
def lib_env_all : LibEnv :=
  { dlopen_kperf := true
    dlopen_kperfdata := true
    dlsym_kperf := fun _ => true
    dlsym_kperfdata := fun _ => true }

/-- resolver environment in which one kperf symbol is missing. -/
def lib_env_missing : LibEnv :=
  { lib_env_all with dlsym_kperf := fun n => !(n == "kperf_reset") }

/-- resolver environment in which nothing loads. -/
def lib_env_none : LibEnv :=
  { dlopen_kperf := false
    dlopen_kperfdata := false
    dlsym_kperf := fun _ => false
    dlsym_kperfdata := fun _ => false }

/-- `sk_init` environment in which everything loads and the permission
probe succeeds. -/
def sk_init_env_ok : SkInitEnv :=
  { dlopen_kperf := true
    dlopen_kperfdata := true
    dlsym_kperf := fun _ => true
    dlsym_kperfdata := fun _ => true
    force_all_ctrs_get_ret := 0 }

end SimpleKpc

namespace SimpleKpc

theorem push_all_write_indices_range' (l : List (String × String)) (e : sk_events) :
    sk_events_push_all_write_indices e l = List.range' e.count l.length := by
  induction l generalizing e with
  | nil => rfl
  | cons p rest ih =>
    obtain ⟨h, n⟩ := p
    show sk_events_push_write_index e ::
        sk_events_push_all_write_indices (sk_events_push e h n) rest =
      List.range' e.count (rest.length + 1)
    rw [ih, List.range'_succ]
    rfl

/-- C9: `sk_events_push` stores at index `count` (so the i-th push from
a fresh `sk_events_create` writes index i), and every write lands
inside the `KPC_MAX_COUNTERS`-element `calloc`ed arrays exactly when at
most `KPC_MAX_COUNTERS` events are pushed in total; a 33rd push writes
index 32, past the capacity. -/
theorem c9_push_write_bounds (l : List (String × String)) :
    sk_events_push_all_write_indices sk_events_create l = List.range l.length ∧
    ((sk_events_push_all_write_indices sk_events_create l).all
        (fun i => decide (i < KPC_MAX_COUNTERS)) = true ↔
      l.length ≤ KPC_MAX_COUNTERS) := by
  have h := push_all_write_indices_range' l sk_events_create
  rw [show sk_events_create.count = 0 from rfl, ← List.range_eq_range'] at h
  refine ⟨h, ?_⟩
  rw [h]
  simp only [List.all_eq_true, List.mem_range, decide_eq_true_eq]
  constructor
  · intro hall
    by_contra hgt
    push_neg at hgt
    exact absurd (hall KPC_MAX_COUNTERS hgt) (lt_irrefl _)
  · intro hle i hi
    exact lt_of_lt_of_le hi hle

/-- C10: `sk_init` either aborts the process or returns with the
`initialized` flag set, so the `assert(initialized)` at the top of
`sk_start_measurement` holds after any successful `sk_init`; calling
`sk_start_measurement` with the flag still false aborts at the
assertion, performing no capability call. -/
theorem c10_init_guard (envI : SkInitEnv) (env : Env) (e : sk_events) :
    (sk_init envI false = none ∨ sk_init envI false = some true) ∧
    (∀ b, sk_init envI false = some b →
        sk_start_measurement b env e =
          some (sk_start_measurement_trace env e,
                sk_start_measurement_result env e)) ∧
    sk_start_measurement false env e = none := by
  refine ⟨?_, ?_, rfl⟩
  · unfold sk_init
    split_ifs <;> simp_all
  · intro b hb
    unfold sk_init at hb
    split_ifs at hb <;> simp_all [sk_start_measurement]

theorem c10_witness :
    sk_start_measurement true env_ex events_ex =
      some (sk_start_measurement_trace env_ex events_ex,
            sk_start_measurement_result env_ex events_ex) :=
  (c10_init_guard sk_init_env_ok env_ex events_ex).2.1 true (by decide)

/-- C1 (amended): `sk_finish_measurement` reads the after snapshot as
its first action, then disables counting at the system scope
(`kpc_set_counting(0)`) and releases exclusive counter ownership
(`kpc_force_all_ctrs_set(0)`), in that order, before any delta is
computed or formatted; everything after those three calls is pure
report output.  (Thread-scope counting is never disabled.) -/
theorem c1_finish_teardown (m : sk_in_progress_measurement)
    (counters_after : List Nat) :
    (sk_finish_measurement_trace m counters_after).take 3 =
      [Action.kpc_get_thread_counters, Action.kpc_set_counting 0,
       Action.kpc_force_all_ctrs_set 0] ∧
    ((sk_finish_measurement_trace m counters_after).drop 3).all
        is_output_action = true := by
  refine ⟨rfl, ?_⟩
  show (report_trace m counters_after).all is_output_action = true
  rw [List.all_eq_true]
  intro x hx
  simp only [report_trace, List.mem_cons, List.mem_map] at hx
  rcases hx with rfl | rfl | ⟨p, hp, rfl⟩ <;> rfl

/-- C1 counterexample: on a concrete finished measurement the trace of
`sk_finish_measurement` contains no `kpc_set_thread_counting` call at
all, so counting is not disabled at the current-thread scope. -/
theorem c1_counterexample :
    Action.kpc_set_thread_counting 0 ∉
        sk_finish_measurement_trace measurement_ex [11, 22, 33] ∧
    (sk_finish_measurement_trace measurement_ex [11, 22, 33]).all
        (fun a => !is_set_thread_counting a) = true := by
  decide

/-- C3: on every successful arm, the before-snapshot read
(`kpc_get_thread_counters`) is the very last action of
`sk_start_measurement`, immediately preceded by enabling counting at
thread scope, itself immediately preceded by enabling counting at
system scope. -/
theorem c3_before_snapshot_last (env : Env) (e : sk_events)
    (hsucc : (add_events_loop env (requests e)).missing = none) :
    (sk_start_measurement_trace env e).reverse.take 3 =
      [Action.kpc_get_thread_counters,
       Action.kpc_set_thread_counting env.classes,
       Action.kpc_set_counting env.classes] := by
  unfold sk_start_measurement_trace
  rw [hsucc]
  simp [start_tail_trace, List.reverse_append]

theorem c3_witness :
    (sk_start_measurement_trace env_ex events_ex).reverse.take 3 =
      [Action.kpc_get_thread_counters,
       Action.kpc_set_thread_counting env_ex.classes,
       Action.kpc_set_counting env_ex.classes] :=
  c3_before_snapshot_last env_ex events_ex (by decide)

end SimpleKpc

namespace SimpleKpc

theorem getLast?_cons_of_getLast? {α : Type} {l : List α} {a x : α}
    (h : l.getLast? = some x) : (a :: l).getLast? = some x := by
  cases l with
  | nil => simp at h
  | cons b t => rw [List.getLast?_cons_cons]; exact h

/-- C4: when some catalog key is unresolvable, the event loop of
`sk_start_measurement` fails at the first unresolvable request: the
reported failure carries that request's display name (both in the
returned pair and in the printed diagnostic), only the requests before
it were registered with `kpep_config_add_event`, and the last action is
`exit(1)`. -/
theorem c4_event_not_found (env : Env) (reqs : List (String × String)) (k : Nat)
    (hk : first_missing_index env reqs = some k) :
    (add_events_loop env reqs).missing = some (reqs.getD k ("", "")) ∧
    added_event_names (add_events_loop env reqs).trace =
      (reqs.take k).map Prod.snd ∧
    Action.print_line ("Cannot find event for " ++ (reqs.getD k ("", "")).1 ++
        ": " ++ (reqs.getD k ("", "")).2 ++ ".") ∈
      (add_events_loop env reqs).trace ∧
    (add_events_loop env reqs).trace.getLast? = some (Action.exit_process 1) := by
  induction reqs generalizing k with
  | nil => simp [first_missing_index] at hk
  | cons r rest ih =>
    obtain ⟨h, n⟩ := r
    by_cases hmiss : (env.db_event n).isNone = true
    · have hnone : env.db_event n = none := by
        simpa [Option.isNone_iff_eq_none] using hmiss
      simp only [first_missing_index, hmiss, if_true] at hk
      obtain rfl : k = 0 := by simpa using hk.symm
      refine ⟨?_, ?_, ?_, ?_⟩ <;>
        simp [add_events_loop, hnone, added_event_names]
    · obtain ⟨d, hd⟩ : ∃ d, env.db_event n = some d := by
        cases hopt : env.db_event n with
        | none => simp [hopt] at hmiss
        | some d => exact ⟨d, rfl⟩
      simp only [first_missing_index, hd, Option.isNone_some,
        Bool.false_eq_true, if_false] at hk
      rw [Option.map_eq_some'] at hk
      obtain ⟨k', hk', rfl⟩ := hk
      obtain ⟨ih1, ih2, ih3, ih4⟩ := ih k' hk'
      refine ⟨?_, ?_, ?_, ?_⟩
      · simpa [add_events_loop, hd] using ih1
      · simpa [add_events_loop, hd, added_event_names, List.filterMap_cons]
          using ih2
      · simp only [add_events_loop, hd]
        exact List.mem_cons_of_mem _ (List.mem_cons_of_mem _ (by simpa using ih3))
      · simp only [add_events_loop, hd]
        exact getLast?_cons_of_getLast? (getLast?_cons_of_getLast? ih4)

end SimpleKpc

namespace SimpleKpc

theorem c4_witness :
    (add_events_loop env_missing_ex requests_missing_ex).missing =
      some (requests_missing_ex.getD 1 ("", "")) ∧
    added_event_names (add_events_loop env_missing_ex requests_missing_ex).trace =
      (requests_missing_ex.take 1).map Prod.snd ∧
    Action.print_line ("Cannot find event for " ++
        (requests_missing_ex.getD 1 ("", "")).1 ++ ": " ++
        (requests_missing_ex.getD 1 ("", "")).2 ++ ".") ∈
      (add_events_loop env_missing_ex requests_missing_ex).trace ∧
    (add_events_loop env_missing_ex requests_missing_ex).trace.getLast? =
      some (Action.exit_process 1) :=
  c4_event_not_found env_missing_ex requests_missing_ex 1 (by decide)

theorem add_events_loop_no_kpc (env : Env) (reqs : List (String × String))
    (b : Nat) : Action.kpep_config_kpc b ∉ (add_events_loop env reqs).trace := by
  induction reqs with
  | nil => simp [add_events_loop]
  | cons r rest ih =>
    obtain ⟨h, n⟩ := r
    cases hd : env.db_event n <;> simp [add_events_loop, hd, ih]

/-- C5 (amended): the raw-register buffer handed to `kpep_config_kpc`
is the fixed stack array `u64 regs[KPC_MAX_COUNTERS]`, and the size
passed is `sizeof(m->regs)` — the hardcoded constant
`KPC_MAX_COUNTERS * 8` bytes — independent of the register count the
configuration itself would report. -/
theorem c5_fixed_regs_buffer (env : Env) (e : sk_events)
    (hsucc : (add_events_loop env (requests e)).missing = none) :
    Action.kpep_config_kpc (KPC_MAX_COUNTERS * 8) ∈
      sk_start_measurement_trace env e ∧
    ∀ b, Action.kpep_config_kpc b ∈ sk_start_measurement_trace env e →
      b = KPC_MAX_COUNTERS * 8 := by
  unfold sk_start_measurement_trace
  rw [hsucc]
  constructor
  · simp [start_tail_trace]
  · intro b hb
    have hno := add_events_loop_no_kpc env (requests e) b
    simp only [start_tail_trace, List.mem_append, List.mem_cons,
      List.mem_singleton, List.not_mem_nil] at hb
    rcases hb with hb | hb | hb <;> simp_all

theorem c5_witness :
    Action.kpep_config_kpc (KPC_MAX_COUNTERS * 8) ∈
      sk_start_measurement_trace env_ex events_ex :=
  (c5_fixed_regs_buffer env_ex events_ex (by decide)).1

/-- C5 counterexample: under `env_ex` the configuration reports 4
registers, yet the size handed to `kpep_config_kpc` is the constant
`KPC_MAX_COUNTERS * 8 = 256` bytes and never the reported
`kpc_count * 8 = 32` bytes: the buffer is not sized from the
configuration's reported count. -/
theorem c5_counterexample :
    Action.kpep_config_kpc (env_ex.kpc_count * 8) ∉
      sk_start_measurement_trace env_ex events_ex ∧
    Action.kpep_config_kpc (KPC_MAX_COUNTERS * 8) ∈
      sk_start_measurement_trace env_ex events_ex := by
  decide

theorem add_events_loop_missing_ignores_ret (env : Env) (f : String → Nat)
    (reqs : List (String × String)) :
    (add_events_loop { env with add_event_result := f } reqs).missing =
      (add_events_loop env reqs).missing := by
  induction reqs with
  | nil => rfl
  | cons r rest ih =>
    obtain ⟨h, n⟩ := r
    cases hd : env.db_event n <;> simp [add_events_loop, hd, ih]

theorem add_events_loop_err_null (env : Env) (reqs : List (String × String)) :
    ((add_events_loop env reqs).trace.all is_err_bitmap_null) = true := by
  induction reqs with
  | nil => rfl
  | cons r rest ih =>
    obtain ⟨h, n⟩ := r
    cases hd : env.db_event n <;>
      simp [add_events_loop, hd, is_err_bitmap_null, ih]

/-- C6 (amended): `sk_start_measurement` discards the return code of
every `kpep_config_add_event` call and passes a NULL error bitmap, so a
`CONFLICTING_EVENTS` report never surfaces: the outcome of the build is
the same whatever status codes `kpep_config_add_event` returns. -/
theorem c6_conflict_swallowed (env : Env) (f : String → Nat) (e : sk_events) :
    sk_start_measurement_result { env with add_event_result := f } e =
      sk_start_measurement_result env e ∧
    ((add_events_loop env (requests e)).trace.all is_err_bitmap_null) = true := by
  refine ⟨?_, add_events_loop_err_null env (requests e)⟩
  unfold sk_start_measurement_result
  rw [add_events_loop_missing_ignores_ret]

/-- C6 counterexample: under `env_conflict_ex` the capability call
`kpep_config_add_event` reports `CONFLICTING_EVENTS` (code 12) for the
second requested event, with a NULL error bitmap, yet the build
succeeds with no error outcome: the conflict is silently swallowed
rather than surfaced as a distinct, inspectable outcome. -/
theorem c6_counterexample :
    Action.kpep_config_add_event "FIXED_INSTRUCTIONS"
        KPEP_CONFIG_ERROR_CONFLICTING_EVENTS true ∈
      sk_start_measurement_trace env_conflict_ex events_ex ∧
    sk_start_measurement_result env_conflict_ex events_ex =
      some { events := events_ex, classes := 3, counter_map := [2, 0],
             regs := [5], counters := [10, 20, 30] } := by
  decide

end SimpleKpc

namespace SimpleKpc

theorem lib_init_success_state (env : LibEnv) (s : LibState)
    (h : (lib_init env s).2.1 = true) :
    (lib_init env s).1.lib_inited = true ∧
    (lib_init env s).1.lib_has_err = false := by
  unfold lib_init at h ⊢
  by_cases hi : s.lib_inited = true
  · simp only [hi, if_true] at h ⊢
    simpa using h
  · by_cases h1 : env.dlopen_kperf = true
    · by_cases h2 : env.dlopen_kperfdata = true
      · cases hm1 : (load_symbols env.dlsym_kperf lib_symbols_kperf).missing with
        | some n => simp [hi, h1, h2, hm1, lib_return_err] at h
        | none =>
          cases hm2 :
              (load_symbols env.dlsym_kperfdata lib_symbols_kperfdata).missing with
          | some n => simp [hi, h1, h2, hm1, hm2, lib_return_err] at h
          | none => simp [hi, h1, h2, hm1, hm2]
      · simp [hi, h1, h2, lib_return_err] at h
    · simp [hi, h1, lib_return_err] at h

/-- C7: when a resolution attempt fails (`lib_init` returns false from
a not-yet-initialized state), the returned global state holds no
module handle and every symbol slot of both capability tables is NULL:
no partial capability table is observable after a failed resolution. -/
theorem c7_failed_resolution_clears (env : LibEnv) (s : LibState)
    (hinit : s.lib_inited = false) (hfail : (lib_init env s).2.1 = false) :
    no_partial_table (lib_init env s).1 ∧
    (lib_init env s).1.lib_inited = true ∧
    (lib_init env s).1.lib_has_err = true := by
  unfold lib_init at hfail ⊢
  by_cases h1 : env.dlopen_kperf = true
  · by_cases h2 : env.dlopen_kperfdata = true
    · cases hm1 : (load_symbols env.dlsym_kperf lib_symbols_kperf).missing with
      | some n =>
        simp [hinit, h1, h2, hm1, lib_return_err, lib_deinit, no_partial_table]
      | none =>
        cases hm2 :
            (load_symbols env.dlsym_kperfdata lib_symbols_kperfdata).missing with
        | some n =>
          simp [hinit, h1, h2, hm1, hm2, lib_return_err, lib_deinit,
            no_partial_table]
        | none => simp [hinit, h1, h2, hm1, hm2] at hfail
    · simp [hinit, h1, h2, lib_return_err, lib_deinit, no_partial_table]
  · simp [hinit, h1, lib_return_err, lib_deinit, no_partial_table]

theorem c7_witness :
    no_partial_table (lib_init lib_env_missing lib_state_start).1 ∧
    (lib_init lib_env_missing lib_state_start).1.lib_inited = true ∧
    (lib_init lib_env_missing lib_state_start).1.lib_has_err = true :=
  c7_failed_resolution_clears lib_env_missing lib_state_start rfl (by decide)

/-- C8: after a successful resolution, every subsequent `lib_init`
call — under any loader environment whatsoever — returns the cached
success immediately, performs no `dlopen`, `dlsym` or `dlclose`, and
leaves the resolver state unchanged. -/
theorem c8_cached_after_success (env : LibEnv) (s : LibState)
    (h : (lib_init env s).2.1 = true) :
    ∀ env' : LibEnv,
      lib_init env' (lib_init env s).1 = ((lib_init env s).1, true, []) := by
  intro env'
  obtain ⟨h1, h2⟩ := lib_init_success_state env s h
  generalize (lib_init env s).1 = s' at h1 h2 ⊢
  unfold lib_init
  simp [h1, h2]

theorem c8_witness :
    lib_init lib_env_none (lib_init lib_env_all lib_state_start).1 =
      ((lib_init lib_env_all lib_state_start).1, true, []) :=
  c8_cached_after_success lib_env_all lib_state_start (by decide) lib_env_none

end SimpleKpc

namespace SimpleKpc

theorem push_all_count (e : sk_events) (l : List (String × String)) :
    (sk_events_push_all e l).count = e.count + l.length := by
  induction l generalizing e with
  | nil => rfl
  | cons p rest ih =>
    obtain ⟨h, n⟩ := p
    rw [sk_events_push_all, ih]
    show e.count + 1 + rest.length = e.count + (rest.length + 1)
    omega

theorem push_all_lengths (e : sk_events) (l : List (String × String)) :
    (sk_events_push_all e l).human_readable_names.length =
      e.human_readable_names.length ∧
    (sk_events_push_all e l).internal_names.length =
      e.internal_names.length := by
  induction l generalizing e with
  | nil => exact ⟨rfl, rfl⟩
  | cons p rest ih =>
    obtain ⟨h, n⟩ := p
    rw [sk_events_push_all]
    simpa [sk_events_push] using ih (sk_events_push e h n)

theorem requests_push (e : sk_events) (h n : String)
    (hh : e.count < e.human_readable_names.length)
    (hi : e.count < e.internal_names.length) :
    requests (sk_events_push e h n) = requests e ++ [(h, n)] := by
  unfold requests
  show (List.range (e.count + 1)).map _ = _
  rw [List.range_succ, List.map_append]
  congr 1
  · apply List.map_congr_left
    intro i hmem
    rw [List.mem_range] at hmem
    have hne : e.count ≠ i := (Nat.ne_of_lt hmem).symm
    simp [sk_events_push, List.getD_eq_getElem?_getD, List.getElem?_set_ne hne]
  · simp [sk_events_push, List.getD_eq_getElem?_getD,
      List.getElem?_set_self hh, List.getElem?_set_self hi]

theorem requests_push_all (l : List (String × String)) (e : sk_events)
    (hh : e.human_readable_names.length = KPC_MAX_COUNTERS)
    (hi : e.internal_names.length = KPC_MAX_COUNTERS)
    (hc : e.count + l.length ≤ KPC_MAX_COUNTERS) :
    requests (sk_events_push_all e l) = requests e ++ l := by
  induction l generalizing e with
  | nil => simp [sk_events_push_all]
  | cons p rest ih =>
    obtain ⟨h, n⟩ := p
    rw [sk_events_push_all]
    have hcount : e.count < KPC_MAX_COUNTERS := by
      have : rest.length + 1 = ((h, n) :: rest).length := rfl
      omega
    rw [ih (sk_events_push e h n) (by simp [sk_events_push, hh])
      (by simp [sk_events_push, hi])
      (by show e.count + 1 + rest.length ≤ _; have := hc; simp at this; omega)]
    rw [requests_push e h n (by omega) (by omega)]
    simp

theorem requests_create_push_all (l : List (String × String))
    (hlen : l.length ≤ KPC_MAX_COUNTERS) :
    requests (sk_events_push_all sk_events_create l) = l := by
  have h := requests_push_all l sk_events_create (by simp [sk_events_create])
    (by simp [sk_events_create]) (by simpa [sk_events_create] using hlen)
  simpa [requests, sk_events_create] using h

end SimpleKpc

namespace SimpleKpc

/-- C2: for every request sequence of length at most
`KPC_MAX_COUNTERS`, a successful `sk_start_measurement` followed by
`sk_finish_measurement` reports one delta per request, in the caller's
order and with the caller's display names, and the delta for request i
is `after[counter_map[i]] - before[counter_map[i]]` computed with
wrapping unsigned 64-bit subtraction. -/
theorem c2_delta_report (env : Env) (l : List (String × String))
    (counters_after : List Nat) (hlen : l.length ≤ KPC_MAX_COUNTERS)
    (m : sk_in_progress_measurement)
    (hm : sk_start_measurement_result env (sk_events_push_all sk_events_create l)
        = some m) :
    (sk_finish_measurement_deltas m counters_after).length = l.length ∧
    (sk_finish_measurement_deltas m counters_after).map Prod.fst =
      l.map Prod.fst ∧
    ∀ i, i < l.length →
      (sk_finish_measurement_deltas m counters_after).getD i ("", 0) =
        ((l.getD i ("", "")).1,
         u64_sub (counters_after.getD (env.counter_map.getD i 0) 0)
                 (env.thread_counters.getD (env.counter_map.getD i 0) 0)) := by
  unfold sk_start_measurement_result at hm
  set e := sk_events_push_all sk_events_create l with he
  cases hmiss : (add_events_loop env (requests e)).missing with
  | some v => simp only [hmiss] at hm; exact Option.noConfusion hm
  | none =>
    simp only [hmiss, Option.some_inj] at hm
    subst hm
    have hcount : e.count = l.length := by
      rw [he, push_all_count]
      simp [sk_events_create]
    have hreq : requests e = l := requests_create_push_all l hlen
    have hname : ∀ i, i < l.length →
        (e.human_readable_names.getD i none).getD "" = (l.getD i ("", "")).1 := by
      intro i hi
      have hi' : i < e.count := by omega
      have h2 : (requests e).getD i ("", "") =
          ((e.human_readable_names.getD i none).getD "",
           (e.internal_names.getD i none).getD "") := by
        unfold requests
        rw [List.getD_eq_getElem?_getD, List.getElem?_map,
          List.getElem?_range hi']
        rfl
      rw [hreq] at h2
      exact (congrArg Prod.fst h2).symm
    refine ⟨?_, ?_, ?_⟩
    · simp [sk_finish_measurement_deltas, hcount]
    · rw [← hreq]
      unfold sk_finish_measurement_deltas requests
      rw [List.map_map, List.map_map]
      rfl
    · intro i hi
      have hi' : i < e.count := by omega
      unfold sk_finish_measurement_deltas
      rw [List.getD_eq_getElem?_getD, List.getElem?_map,
        List.getElem?_range hi']
      show ((e.human_readable_names.getD i none).getD "",
        u64_sub (counters_after.getD (env.counter_map.getD i 0) 0)
          (env.thread_counters.getD (env.counter_map.getD i 0) 0)) = _
      rw [hname i hi]

end SimpleKpc

namespace SimpleKpc

theorem c2_witness :
    (sk_finish_measurement_deltas measurement_ex [11, 22, 33]).length =
      requests_ex.length ∧
    (sk_finish_measurement_deltas measurement_ex [11, 22, 33]).map Prod.fst =
      requests_ex.map Prod.fst ∧
    (sk_finish_measurement_deltas measurement_ex [11, 22, 33]).getD 0 ("", 0) =
      ((requests_ex.getD 0 ("", "")).1,
       u64_sub (List.getD [11, 22, 33] (env_ex.counter_map.getD 0 0) 0)
               (env_ex.thread_counters.getD (env_ex.counter_map.getD 0 0) 0)) := by
  obtain ⟨h1, h2, h3⟩ :=
    c2_delta_report env_ex requests_ex [11, 22, 33] (by decide)
      measurement_ex (by decide)
  exact ⟨h1, h2, h3 0 (by decide)⟩

end SimpleKpc
